import Mathlib

-- Verification of the PostgreSQL MCP server (postgres_mcp_server.py).
-- The tools are modelled as pure functions over an explicit database
-- environment `Env`; each database round-trip the code performs is logged
-- as a `Stmt`, and a driver exception escaping the tool boundary is an
-- `Except.error`.  All string handling mirrors Python semantics on the
-- character level (ASCII case folding, as the queries at issue are ASCII).

namespace PgMcp

-- A result row as the code materialises it (`dict(row)`): column name to
-- value, in the column order returned by the database; values that the
-- output format cannot represent natively are already their canonical
-- string form (`json.dumps(..., default=str)`).
abbrev Row := List (String × String)

-- ---------------------------------------------------------------------
-- Character-level string primitives mirroring the Python operations used
-- in execute_query (lower/strip/startswith/substring/rstrip/slice).
-- ---------------------------------------------------------------------

-- Python `needle in hay` requires `needle` to occur starting at some
-- position; `isPre` is the "occurs at the front" check.
def isPre (needle hay : List Char) : Bool :=
  match needle, hay with
  | [], _ => true
  | _ :: _, [] => false
  | a :: as, b :: bs => a == b && isPre as bs

-- Python substring containment `needle in hay`.
def hasSub (hay needle : List Char) : Bool :=
  match hay with
  | [] => needle.isEmpty
  | _ :: t => isPre needle hay || hasSub t needle

-- Python `str.strip()` (whitespace at both ends).
def trimChars (l : List Char) : List Char :=
  ((l.dropWhile Char.isWhitespace).reverse.dropWhile Char.isWhitespace).reverse

-- `query.lower().strip()` from line 515 (ASCII case folding).
def lowerStrip (q : String) : List Char :=
  trimChars (q.data.map Char.toLower)

-- `query_lower.startswith('select')` from line 516.
def startsWithSelect (q : String) : Bool :=
  isPre "select".data (lowerStrip q)

-- Python `query.rstrip(';')` from line 527.
def rstripSemis (l : List Char) : List Char :=
  (l.reverse.dropWhile (fun c => c == ';')).reverse

-- The single-quote character, used in several of the server's messages.
def sq : String := String.singleton (Char.ofNat 39)

-- ---------------------------------------------------------------------
-- Query Guard (inlined in execute_query, lines 514-527).
-- ---------------------------------------------------------------------

-- Which of the two rejection returns fired; the code embeds this in the
-- returned message text (line 517 names the SELECT-only rule, line 523
-- names the triggering keyword).
inductive RejectReason where
  | notSelect
  | dangerousKeyword (kw : String)
deriving DecidableEq, Repr

-- Line 520.
def dangerous_keywords : List String :=
  ["drop", "delete", "truncate", "update", "insert", "alter", "create"]

-- The guard's decision: on rejection the original text is carried
-- unmodified (the code returns before the LIMIT mutation on line 527);
-- on the allowed path `text` is the text that will be executed.
inductive GuardDecision where
  | rejected (reason : RejectReason) (text : String)
  | allowed (text : String)
deriving DecidableEq, Repr

def GuardDecision.isAllowed : GuardDecision → Bool
  | .rejected _ _ => false
  | .allowed _ => true

def GuardDecision.text : GuardDecision → String
  | .rejected _ t => t
  | .allowed t => t

def GuardDecision.reason : GuardDecision → Option RejectReason
  | .rejected r _ => some r
  | .allowed _ => none

-- Lines 514-527 of execute_query, as a pure function of the query text
-- and the declared row limit.
def evaluateGuard (query : String) (lim : Int) : GuardDecision :=
  let query_lower := lowerStrip query
  if isPre "select".data query_lower = false then
    .rejected .notSelect query
  else
    match dangerous_keywords.find? (fun kw => hasSub query_lower kw.data) with
    | some kw => .rejected (.dangerousKeyword kw) query
    | none =>
      if hasSub query_lower "limit".data then
        .allowed query
      else
        .allowed (String.mk (rstripSemis query.data) ++ " LIMIT " ++ toString lim)

-- ---------------------------------------------------------------------
-- Structured results (the Pydantic models of lines 107-165; the tools
-- that return plain strings are modelled with String results).
-- ---------------------------------------------------------------------

structure TableListResult where
  schema_name : String
  tables : List String
  total_count : Int
deriving DecidableEq, Repr

structure TableDataResult where
  table : String
  total_rows : Int
  returned_rows : Int
  limit : Int
  offset : Int
  data : List Row
deriving DecidableEq, Repr

-- The envelope execute_query serialises with `json.dumps` on line 551.
structure QueryResult where
  query : String
  columns : List String
  row_count : Int
  data : List Row
deriving DecidableEq, Repr

-- One row of the column-introspection query of describe_table (391-417).
structure ColRow where
  column_name : String
  data_type : String
  character_maximum_length : Option Int
  numeric_precision : Option Int
  numeric_scale : Option Int
  is_nullable : String
  column_default : Option String
  constraints : List (Option String)
deriving DecidableEq, Repr

structure IdxRow where
  indexname : String
  indexdef : String
deriving DecidableEq, Repr

structure FkRow where
  column_name : String
  foreign_table : String
  foreign_column : String
deriving DecidableEq, Repr

structure SearchColRow where
  table_name : String
  column_name : String
  data_type : String
deriving DecidableEq, Repr

structure SizeInfo where
  total_size : String
  table_size : String
  indexes_size : String
deriving DecidableEq, Repr

-- ---------------------------------------------------------------------
-- The SQL statements the server sends, one constructor per call site.
-- Constructors carrying `interpolatedName` embed the caller-supplied
-- identifiers directly in the statement text (the f-strings on lines
-- 341, 346-350 and 598); all other statements pass identifiers as bound
-- parameters ($1, $2).
-- ---------------------------------------------------------------------

inductive Stmt where
  | listTablesQ (schemaParam : String)
  | tablesExistsQ (schemaParam tableParam : String)
  | countQ (interpolatedName : String)
  | pageQ (interpolatedName : String) (lim off : Int)
  | statsQ (interpolatedName : String) (schemaParam tableParam : String)
  | typeDistQ (schemaParam tableParam : String)
  | columnsQ (schemaParam tableParam : String)
  | indexesQ (schemaParam tableParam : String)
  | fksQ (schemaParam tableParam : String)
  | adhocQ (text : String)
  | searchTablesQ (schemaParam patternParam : String)
  | searchColumnsQ (schemaParam patternParam : String)
deriving DecidableEq, Repr

-- Statements whose text contains caller-supplied identifiers by string
-- interpolation rather than as bound parameters.
def interpStmt : Stmt → Bool
  | .countQ _ => true
  | .pageQ _ _ _ => true
  | .statsQ _ _ _ => true
  | _ => false

-- ---------------------------------------------------------------------
-- Database environment: the external collaborator.  `catalog` is the
-- set of (schema, table) base tables; the *Of functions give the rows
-- each fixed introspection query would return; `raiseOn` injects a
-- driver exception (by message) at a given statement, and `acquireFail`
-- makes `pool.acquire()` itself raise.
-- ---------------------------------------------------------------------

structure Env where
  poolReady : Bool
  acquireFail : Option String
  catalog : List (String × String)
  rowsOf : String → String → List Row
  columnsOf : String → String → List ColRow
  indexesOf : String → String → List IdxRow
  fksOf : String → String → List FkRow
  typeDistOf : String → String → List (String × Nat)
  sizesOf : String → String → SizeInfo
  searchTablesOf : String → String → List String
  searchColumnsOf : String → String → List SearchColRow
  adhocRows : String → List Row
  raiseOn : Stmt → Option String

-- ---------------------------------------------------------------------
-- Ordering of `ORDER BY table_name` (performed by the database, an
-- external collaborator): insertion sort by code-point comparison.
-- ---------------------------------------------------------------------

def leChars : List Char → List Char → Bool
  | [], _ => true
  | _ :: _, [] => false
  | a :: as, b :: bs =>
    if a.toNat < b.toNat then true
    else if b.toNat < a.toNat then false
    else leChars as bs

def insertStr (x : String) : List String → List String
  | [] => [x]
  | y :: ys => if leChars x.data y.data then x :: y :: ys else y :: insertStr x ys

def sortStrings : List String → List String
  | [] => []
  | x :: xs => insertStr x (sortStrings xs)

-- The base tables of a schema, ordered by name (the catalog query of
-- lines 264-270).
def tablesInSchema (env : Env) (schema : String) : List String :=
  sortStrings ((env.catalog.filter (fun p => p.1 == schema)).map Prod.snd)

-- ---------------------------------------------------------------------
-- Tool models.  Each tool returns (outcome, statement log); the log
-- lists the statements actually sent to the database, in order.  An
-- `Except.error` outcome is a driver exception escaping the tool
-- function itself (possible only where the source lacks try/except).
-- ---------------------------------------------------------------------

-- The string returned when the pool cannot be initialised (lines 387,
-- 512, 577, 648).
def connErrMsg : String := "Error: Database connection not initialized"

-- list_tables, lines 242-287.  Everything after the pool check sits in
-- one try/except that returns the empty result (283-287); the catalog
-- query itself is parameterized.
def list_tables (env : Env) (schema : String) :
    Except String TableListResult × List Stmt :=
  if env.poolReady = false then (.ok ⟨schema, [], 0⟩, [])
  else
    match env.acquireFail with
    | some _ => (.ok ⟨schema, [], 0⟩, [])
    | none =>
      match env.raiseOn (Stmt.listTablesQ schema) with
      | some _ => (.ok ⟨schema, [], 0⟩, [Stmt.listTablesQ schema])
      | none =>
        let tables := tablesInSchema env schema
        (.ok ⟨schema, tables, (tables.length : Int)⟩, [Stmt.listTablesQ schema])

-- The empty TableDataResult that read_table returns on its pool-failure,
-- missing-table and exception paths (311-318, 331-338, 363-370).
def emptyTD (name : String) (lim off : Int) : TableDataResult :=
  ⟨name, 0, 0, lim, off, []⟩

-- read_table, lines 290-370.  The existence check (323-328) is
-- parameterized; the COUNT (341) and page SELECT (346-350) interpolate
-- `{schema}.{table_name}` into the statement text.  PostgreSQL rejects a
-- negative LIMIT/OFFSET, which the enclosing try/except turns into the
-- empty result like any other driver error.
def read_table (env : Env) (table_name schema : String) (lim off : Int) :
    Except String TableDataResult × List Stmt :=
  let full := schema ++ "." ++ table_name
  if env.poolReady = false then (.ok (emptyTD full lim off), [])
  else
    match env.acquireFail with
    | some _ => (.ok (emptyTD full lim off), [])
    | none =>
      match env.raiseOn (Stmt.tablesExistsQ schema table_name) with
      | some _ => (.ok (emptyTD full lim off), [Stmt.tablesExistsQ schema table_name])
      | none =>
        if (schema, table_name) ∈ env.catalog then
          match env.raiseOn (Stmt.countQ full) with
          | some _ =>
            (.ok (emptyTD full lim off),
             [Stmt.tablesExistsQ schema table_name, Stmt.countQ full])
          | none =>
            let total : Int := (env.rowsOf schema table_name).length
            match env.raiseOn (Stmt.pageQ full lim off) with
            | some _ =>
              (.ok (emptyTD full lim off),
               [Stmt.tablesExistsQ schema table_name, Stmt.countQ full,
                Stmt.pageQ full lim off])
            | none =>
              if lim < 0 ∨ off < 0 then
                (.ok (emptyTD full lim off),
                 [Stmt.tablesExistsQ schema table_name, Stmt.countQ full,
                  Stmt.pageQ full lim off])
              else
                let rows := ((env.rowsOf schema table_name).drop off.toNat).take lim.toNat
                (.ok ⟨full, total, (rows.length : Int), lim, off, rows⟩,
                 [Stmt.tablesExistsQ schema table_name, Stmt.countQ full,
                  Stmt.pageQ full lim off])
        else (.ok (emptyTD full lim off), [Stmt.tablesExistsQ schema table_name])

-- Truthiness of the Python values used by describe_table's formatting
-- (None and 0 are falsy; None and "" are falsy).
def truthyInt : Option Int → Bool
  | none => false
  | some n => n != 0

def truthyStr : Option String → Bool
  | none => false
  | some s => !s.isEmpty

-- Lines 456-464: resolved type string with length or precision/scale.
def formatColType (c : ColRow) : String :=
  if truthyInt c.character_maximum_length then
    c.data_type ++ "(" ++ toString (c.character_maximum_length.getD 0) ++ ")"
  else if truthyInt c.numeric_precision then
    c.data_type ++ "(" ++ toString (c.numeric_precision.getD 0) ++
      (if truthyInt c.numeric_scale then "," ++ toString (c.numeric_scale.getD 0) else "") ++ ")"
  else c.data_type

-- Lines 455-479: one bullet per column.  Python joins `set(constraints)`
-- whose iteration order is unspecified; deduplication in first-seen
-- order stands in for it here.
def formatColumn (c : ColRow) : String :=
  let nullable := if c.is_nullable == "YES" then "NULL" else "NOT NULL"
  let base := "  • " ++ c.column_name ++ ": " ++ formatColType c ++ " " ++ nullable
  let cs := (c.constraints.filterMap id).filter (fun s => !s.isEmpty)
  let base := if cs.isEmpty then base
              else base ++ " [" ++ String.intercalate ", " cs.eraseDups ++ "]"
  let base := if truthyStr c.column_default then
                base ++ "\n      Default: " ++ c.column_default.getD ""
              else base
  base ++ "\n"

-- Lines 452-494: the full describe_table report text.
def formatDescribe (schema table : String) (cols : List ColRow)
    (fks : List FkRow) (idxs : List IdxRow) : String :=
  let header := "=== Table: " ++ schema ++ "." ++ table ++ " ===\n\nCOLUMNS:\n"
  let colsStr := String.join (cols.map formatColumn)
  let fkStr := if fks.isEmpty then "" else
    "\nFOREIGN KEYS:\n" ++
      String.join (fks.map (fun fk =>
        "  • " ++ fk.column_name ++ " -> " ++ fk.foreign_table ++ "." ++ fk.foreign_column ++ "\n"))
  let idxStr := if idxs.isEmpty then "" else
    "\nINDEXES:\n" ++
      String.join (idxs.map (fun i =>
        "  • " ++ i.indexname ++ "\n      " ++ i.indexdef ++ "\n"))
  header ++ colsStr ++ fkStr ++ idxStr

-- Line 420.
def describeNotFoundMsg (schema table : String) : String :=
  "Table " ++ sq ++ schema ++ "." ++ table ++ sq ++ " not found"

-- describe_table, lines 373-494.  NOTE: the source has no try/except
-- here — a driver exception at acquire or at any of the three fetches
-- propagates out of the tool (hence the Except.error outcomes).  A table
-- absent from the catalog has no rows in information_schema.columns, so
-- the emptiness test on line 419 is its existence check.
def describe_table (env : Env) (table_name schema : String) :
    Except String String × List Stmt :=
  if env.poolReady = false then (.ok connErrMsg, [])
  else
    match env.acquireFail with
    | some e => (.error e, [])
    | none =>
      match env.raiseOn (Stmt.columnsQ schema table_name) with
      | some e => (.error e, [Stmt.columnsQ schema table_name])
      | none =>
        let cols := env.columnsOf schema table_name
        if cols.isEmpty then
          (.ok (describeNotFoundMsg schema table_name), [Stmt.columnsQ schema table_name])
        else
          match env.raiseOn (Stmt.indexesQ schema table_name) with
          | some e =>
            (.error e, [Stmt.columnsQ schema table_name, Stmt.indexesQ schema table_name])
          | none =>
            match env.raiseOn (Stmt.fksQ schema table_name) with
            | some e =>
              (.error e,
               [Stmt.columnsQ schema table_name, Stmt.indexesQ schema table_name,
                Stmt.fksQ schema table_name])
            | none =>
              (.ok (formatDescribe schema table_name cols
                      (env.fksOf schema table_name) (env.indexesOf schema table_name)),
               [Stmt.columnsQ schema table_name, Stmt.indexesQ schema table_name,
                Stmt.fksQ schema table_name])

-- Line 545: the echoed query text of the JSON envelope.
def truncEcho (q : String) : String :=
  if q.data.length > 200 then String.mk (q.data.take 200) ++ "..." else q

-- The value execute_query returns, one constructor per return site:
-- connError (512), policyRejected (517 and 523), dbError (the four
-- except branches 553-560, which catch everything raised inside the
-- try), noResults (538), success (551, serialised with json.dumps).
inductive ExecResult where
  | connError
  | policyRejected (r : RejectReason)
  | dbError (msg : String)
  | noResults
  | success (r : QueryResult)
deriving DecidableEq, Repr

-- execute_query, lines 497-560.  The guard runs before the pool is
-- touched beyond initialisation; `pool.acquire()` is *outside* the
-- try/except (line 529), so an acquire failure escapes the tool.
def execute_query (env : Env) (query : String) (lim : Int) :
    Except String ExecResult × List Stmt :=
  if env.poolReady = false then (.ok .connError, [])
  else
    match evaluateGuard query lim with
    | .rejected r _ => (.ok (.policyRejected r), [])
    | .allowed tx =>
      match env.acquireFail with
      | some e => (.error e, [])
      | none =>
        match env.raiseOn (Stmt.adhocQ tx) with
        | some e => (.ok (.dbError e), [Stmt.adhocQ tx])
        | none =>
          match env.adhocRows tx with
          | [] => (.ok .noResults, [Stmt.adhocQ tx])
          | r0 :: rest =>
            (.ok (.success ⟨truncEcho tx, r0.map Prod.fst,
                            ((r0 :: rest).length : Int), r0 :: rest⟩),
             [Stmt.adhocQ tx])

-- Python `f"{n:,}"`: digits grouped in threes by commas (line 618).
def chunk3 : List Char → List (List Char)
  | [] => []
  | a :: b :: c :: rest => [a, b, c] :: chunk3 rest
  | l => [l]

def commaGroupNat (n : Nat) : String :=
  String.mk ((List.intercalate [','] (chunk3 (toString n).data.reverse)).reverse)

-- Lines 590 and 631.
def statsNotFoundMsg (schema table : String) : String :=
  "Error: Table " ++ sq ++ schema ++ "." ++ table ++ sq ++ " not found"

def statsErrMsg (e : String) : String :=
  "Error getting table statistics: " ++ e

-- Lines 617-628: the statistics report text.
def formatStats (schema table : String) (row_count column_count : Nat)
    (sizes : SizeInfo) (dist : List (String × Nat)) : String :=
  "=== Statistics for " ++ schema ++ "." ++ table ++ " ===\n\n" ++
  "Row Count:     " ++ commaGroupNat row_count ++ "\n" ++
  "Column Count:  " ++ toString column_count ++ "\n" ++
  "Total Size:    " ++ sizes.total_size ++ "\n" ++
  "Table Size:    " ++ sizes.table_size ++ "\n" ++
  "Indexes Size:  " ++ sizes.indexes_size ++ "\n\n" ++
  "Column Type Distribution:\n" ++
  String.join (dist.map (fun p => "  • " ++ p.1 ++ ": " ++ toString p.2 ++ " columns\n"))

-- get_table_stats, lines 563-631.  `pool.acquire()` is outside the
-- try/except (579); everything inside the try is caught (630-631).  The
-- existence check (582-587) is parameterized; the stats query (593-601)
-- interpolates `{schema}.{table_name}` into its text.
def get_table_stats (env : Env) (table_name schema : String) :
    Except String String × List Stmt :=
  if env.poolReady = false then (.ok connErrMsg, [])
  else
    match env.acquireFail with
    | some e => (.error e, [])
    | none =>
      match env.raiseOn (Stmt.tablesExistsQ schema table_name) with
      | some e => (.ok (statsErrMsg e), [Stmt.tablesExistsQ schema table_name])
      | none =>
        if (schema, table_name) ∈ env.catalog then
          let full := schema ++ "." ++ table_name
          match env.raiseOn (Stmt.statsQ full schema table_name) with
          | some e =>
            (.ok (statsErrMsg e),
             [Stmt.tablesExistsQ schema table_name, Stmt.statsQ full schema table_name])
          | none =>
            match env.raiseOn (Stmt.typeDistQ schema table_name) with
            | some e =>
              (.ok (statsErrMsg e),
               [Stmt.tablesExistsQ schema table_name,
                Stmt.statsQ full schema table_name, Stmt.typeDistQ schema table_name])
            | none =>
              (.ok (formatStats schema table_name
                      (env.rowsOf schema table_name).length
                      (env.columnsOf schema table_name).length
                      (env.sizesOf schema table_name)
                      (env.typeDistOf schema table_name)),
               [Stmt.tablesExistsQ schema table_name,
                Stmt.statsQ full schema table_name, Stmt.typeDistQ schema table_name])
        else (.ok (statsNotFoundMsg schema table_name), [Stmt.tablesExistsQ schema table_name])

-- Lines 688-695: the grouped column listing, tracking current_table.
def searchColsLines (cols : List SearchColRow) : String :=
  (cols.foldl
    (fun (acc : String × Option String) col =>
      let acc :=
        if (some col.table_name == acc.2) = false then
          (acc.1 ++ "\n  " ++ col.table_name ++ ":\n", some col.table_name)
        else acc
      (acc.1 ++ "    • " ++ col.column_name ++ " (" ++ col.data_type ++ ")\n", acc.2))
    ("", none)).1

-- Lines 677-699: the search report text.
def formatSearch (term schema : String) (mtables : List String)
    (mcols : List SearchColRow) : String :=
  let header := "=== Search Results for " ++ sq ++ term ++ sq ++
    " in schema " ++ sq ++ schema ++ sq ++ " ===\n\n"
  let tpart := if mtables.isEmpty then "No matching tables found.\n\n"
    else "MATCHING TABLES (" ++ toString mtables.length ++ "):\n" ++
      String.join (mtables.map (fun t => "  • " ++ t ++ "\n")) ++ "\n"
  let cpart := if mcols.isEmpty then "No matching columns found."
    else "MATCHING COLUMNS (" ++ toString mcols.length ++ "):\n" ++ searchColsLines mcols
  header ++ tpart ++ cpart

-- search_tables, lines 634-699.  NOTE: no try/except — a driver
-- exception at acquire or at either fetch propagates out of the tool.
-- Both queries are parameterized (pattern `%term.lower()%`, line 650).
def search_tables (env : Env) (search_term schema : String) :
    Except String String × List Stmt :=
  if env.poolReady = false then (.ok connErrMsg, [])
  else
    match env.acquireFail with
    | some e => (.error e, [])
    | none =>
      let pat := "%" ++ String.mk (search_term.data.map Char.toLower) ++ "%"
      match env.raiseOn (Stmt.searchTablesQ schema pat) with
      | some e => (.error e, [Stmt.searchTablesQ schema pat])
      | none =>
        match env.raiseOn (Stmt.searchColumnsQ schema pat) with
        | some e => (.error e, [Stmt.searchTablesQ schema pat, Stmt.searchColumnsQ schema pat])
        | none =>
          (.ok (formatSearch search_term schema
                  (env.searchTablesOf schema pat) (env.searchColumnsOf schema pat)),
           [Stmt.searchTablesQ schema pat, Stmt.searchColumnsQ schema pat])

instance {ε α : Type} [DecidableEq ε] [DecidableEq α] : DecidableEq (Except ε α) := fun x y =>
  match x, y with
  | .ok a, .ok b =>
    decidable_of_iff (a = b) ⟨fun h => h ▸ rfl, fun h => by cases h; rfl⟩
  | .error a, .error b =>
    decidable_of_iff (a = b) ⟨fun h => h ▸ rfl, fun h => by cases h; rfl⟩
  | .ok _, .error _ => isFalse (fun h => by cases h)
  | .error _, .ok _ => isFalse (fun h => by cases h)

-- A benign concrete environment for evaluating the tools: pool up, no
-- injected failures, empty catalog.
def env0 : Env where
  poolReady := true
  acquireFail := none
  catalog := []
  rowsOf := fun _ _ => []
  columnsOf := fun _ _ => []
  indexesOf := fun _ _ => []
  fksOf := fun _ _ => []
  typeDistOf := fun _ _ => []
  sizesOf := fun _ _ => ⟨"", "", ""⟩
  searchTablesOf := fun _ _ => []
  searchColumnsOf := fun _ _ => []
  adhocRows := fun _ => []
  raiseOn := fun _ => none

-- env0 with one ad-hoc result row, for exercising the success path of
-- execute_query.
def env1 : Env := { env0 with adhocRows := fun _ => [[("id", "1")]] }

-- env0 with a driver failure injected at describe_table's column fetch.
def envColsFail : Env :=
  { env0 with raiseOn := fun st =>
      match st with
      | .columnsQ _ _ => some "connection reset"
      | _ => none }

-- env0 with `pool.acquire()` itself raising.
def envAcqFail : Env := { env0 with acquireFail := some "pool closed" }

-- env0 with the pool unavailable.
def envDown : Env := { env0 with poolReady := false }

-- env0 with a driver failure injected at the existence check.
def envTeFail : Env :=
  { env0 with raiseOn := fun st =>
      match st with
      | .tablesExistsQ _ _ => some "boom"
      | _ => none }

-- env0 with one table `public.empty` holding no rows.
def env3 : Env := { env0 with catalog := [("public", "empty")] }

-- env0 with one table `public.users` holding two rows.
def env2 : Env :=
  { env0 with
      catalog := [("public", "users")]
      rowsOf := fun s t =>
        if s = "public" ∧ t = "users" then
          [[("id", "1"), ("name", "alice")], [("id", "2"), ("name", "bob")]]
        else [] }

-- ---------------------------------------------------------------------
-- Guard lemmas shared by the claims.
-- ---------------------------------------------------------------------

theorem evaluateGuard_not_select {q : String} {lim : Int}
    (h : startsWithSelect q = false) :
    evaluateGuard q lim = .rejected .notSelect q := by
  unfold startsWithSelect at h
  unfold evaluateGuard
  simp [h]

theorem evaluateGuard_select_keyword {q kw : String} {lim : Int}
    (hs : startsWithSelect q = true)
    (hf : dangerous_keywords.find? (fun k => hasSub (lowerStrip q) k.data) = some kw) :
    evaluateGuard q lim = .rejected (.dangerousKeyword kw) q := by
  unfold startsWithSelect at hs
  unfold evaluateGuard
  simp [hs, hf]

/-- Claim C1: a query whose trimmed, lower-cased text does not begin with
`select` is rejected by the guard with the not-a-SELECT reason (the
SELECT-prefix rule, which runs before the denylist loop), and
execute_query sends nothing to the database for it; with the pool up, the
caller receives the policy rejection. -/
theorem c1_non_select_rejected (env : Env) (q : String) (lim : Int)
    (h : startsWithSelect q = false) :
    evaluateGuard q lim = .rejected .notSelect q ∧
    (execute_query env q lim).2 = [] ∧
    (env.poolReady = true →
      (execute_query env q lim).1 = .ok (.policyRejected .notSelect)) := by
  have hg : evaluateGuard q lim = .rejected .notSelect q := evaluateGuard_not_select h
  refine ⟨hg, ?_, ?_⟩
  · unfold execute_query
    cases hp : env.poolReady
    · simp [hp]
    · simp [hp, hg]
  · intro hp
    unfold execute_query
    simp [hp, hg]

theorem c1_witness :
    startsWithSelect "DROP TABLE users" = false ∧
    evaluateGuard "DROP TABLE users" 100 =
      .rejected .notSelect "DROP TABLE users" ∧
    (execute_query env0 "DROP TABLE users" 100).2 = [] ∧
    (execute_query env0 "DROP TABLE users" 100).1 = .ok (.policyRejected .notSelect) :=
  ⟨by decide,
   (c1_non_select_rejected env0 "DROP TABLE users" 100 (by decide)).1,
   (c1_non_select_rejected env0 "DROP TABLE users" 100 (by decide)).2.1,
   (c1_non_select_rejected env0 "DROP TABLE users" 100 (by decide)).2.2 (by decide)⟩

/-- Claim C2, counterexample: `"DROP TABLE users"` contains the
denylisted keyword `drop`, yet the guard's rejection names the SELECT-only
rule, not the keyword — so the claim that every keyword-containing query
is rejected with a message naming the keyword is false as stated. -/
theorem c2_counterexample :
    hasSub (lowerStrip "DROP TABLE users") "drop".data = true ∧
    "drop" ∈ dangerous_keywords ∧
    evaluateGuard "DROP TABLE users" 100 =
      .rejected .notSelect "DROP TABLE users" ∧
    RejectReason.notSelect ≠ RejectReason.dangerousKeyword "drop" := by
  decide

/-- Claim C2 (amended): every query containing a denylisted keyword is
rejected; when the query also passes the SELECT-prefix rule, the
rejection names one of the denylisted keywords occurring in the text.
The documented substring false-positive stands: `select name from
applications` is allowed while `select * from updates` is rejected. -/
theorem c2_keyword_rejection (q : String) (lim : Int)
    (h : ∃ kw ∈ dangerous_keywords, hasSub (lowerStrip q) kw.data = true) :
    (evaluateGuard q lim).isAllowed = false ∧
    (startsWithSelect q = true →
      ∃ kw ∈ dangerous_keywords, hasSub (lowerStrip q) kw.data = true ∧
        evaluateGuard q lim = .rejected (.dangerousKeyword kw) q) ∧
    (evaluateGuard "select name from applications" 100).isAllowed = true ∧
    (evaluateGuard "select * from updates" 100).isAllowed = false := by
  have hfind : (dangerous_keywords.find? (fun k => hasSub (lowerStrip q) k.data)).isSome = true := by
    rw [List.find?_isSome]
    obtain ⟨kw, hkm, hks⟩ := h
    exact ⟨kw, hkm, hks⟩
  obtain ⟨kw, hkw⟩ := Option.isSome_iff_exists.mp hfind
  refine ⟨?_, ?_, by decide, by decide⟩
  · cases hs : startsWithSelect q
    · rw [evaluateGuard_not_select hs]; rfl
    · rw [evaluateGuard_select_keyword hs hkw]; rfl
  · intro hs
    exact ⟨kw, List.mem_of_find?_eq_some hkw, by simpa using List.find?_some hkw,
           evaluateGuard_select_keyword hs hkw⟩

theorem c2_witness :
    (evaluateGuard "select * from updates" 100).isAllowed = false ∧
    (∃ kw ∈ dangerous_keywords,
      hasSub (lowerStrip "select * from updates") kw.data = true ∧
      evaluateGuard "select * from updates" 100 =
        .rejected (.dangerousKeyword kw) "select * from updates") :=
  ⟨(c2_keyword_rejection "select * from updates" 100 ⟨"update", by decide, by decide⟩).1,
   (c2_keyword_rejection "select * from updates" 100 ⟨"update", by decide, by decide⟩).2.1
     (by decide)⟩

/-- Claim C3: on the allowed path, a query already containing the token
`limit` is executed unchanged, and a query lacking it is executed as the
original with trailing semicolons stripped and a LIMIT clause using the
supplied bound appended (so the executed text ends with that clause); a
rejected query's text is never modified. -/
theorem c3_limit_append (q : String) (lim : Int) :
    ((evaluateGuard q lim).isAllowed = true →
      (hasSub (lowerStrip q) "limit".data = true →
        (evaluateGuard q lim).text = q) ∧
      (hasSub (lowerStrip q) "limit".data = false →
        (evaluateGuard q lim).text =
          String.mk (rstripSemis q.data) ++ " LIMIT " ++ toString lim ∧
        (" LIMIT " ++ toString lim).data <:+ (evaluateGuard q lim).text.data)) ∧
    ((evaluateGuard q lim).isAllowed = false → (evaluateGuard q lim).text = q) := by
  cases hs : startsWithSelect q
  · rw [evaluateGuard_not_select hs]
    exact ⟨(fun h => nomatch h), (fun _ => rfl)⟩
  · cases hkw : dangerous_keywords.find? (fun k => hasSub (lowerStrip q) k.data)
    case some kw =>
      rw [evaluateGuard_select_keyword hs hkw]
      exact ⟨(fun h => nomatch h), (fun _ => rfl)⟩
    case none =>
      unfold startsWithSelect at hs
      cases hl : hasSub (lowerStrip q) "limit".data
      · have hg : evaluateGuard q lim =
            .allowed (String.mk (rstripSemis q.data) ++ " LIMIT " ++ toString lim) := by
          unfold evaluateGuard
          simp [hs, hkw, hl]
        rw [hg]
        refine ⟨fun _ => ⟨(fun h => nomatch h), (fun _ => ⟨rfl, ?_⟩)⟩,
                (fun h => nomatch h)⟩
        show (" LIMIT " ++ toString lim).data <:+
          (String.mk (rstripSemis q.data) ++ " LIMIT " ++ toString lim).data
        simp only [String.data_append, List.append_assoc]
        rw [← String.data_append]
        exact List.suffix_append _ _
      · have hg : evaluateGuard q lim = .allowed q := by
          unfold evaluateGuard
          simp [hs, hkw, hl]
        rw [hg]
        exact ⟨(fun _ => ⟨(fun _ => rfl), (fun h => nomatch h)⟩),
               (fun h => nomatch h)⟩

theorem c3_witness :
    (evaluateGuard "select 1;" 5).text =
      String.mk (rstripSemis "select 1;".data) ++ " LIMIT " ++ toString (5 : Int) ∧
    (" LIMIT " ++ toString (5 : Int)).data <:+ (evaluateGuard "select 1;" 5).text.data ∧
    (evaluateGuard "select * from t limit 3" 7).text = "select * from t limit 3" :=
  ⟨(((c3_limit_append "select 1;" 5).1 (by decide)).2 (by decide)).1,
   (((c3_limit_append "select 1;" 5).1 (by decide)).2 (by decide)).2,
   ((c3_limit_append "select * from t limit 3" 7).1 (by decide)).1 (by decide)⟩

-- ---------------------------------------------------------------------
-- Error-as-data lemmas shared by the claims.
-- ---------------------------------------------------------------------

theorem exists_ok_of_ne_error {α : Type} (x : Except String α)
    (h : ∀ e, x ≠ .error e) : ∃ r, x = .ok r := by
  cases x
  · exact absurd rfl (h _)
  · exact ⟨_, rfl⟩

theorem list_tables_no_raise (env : Env) (s : String) :
    ∀ e, (list_tables env s).1 ≠ .error e := by
  intro e h
  unfold list_tables at h
  cases hp : env.poolReady <;>
  cases ha : env.acquireFail <;>
  cases hq : env.raiseOn (Stmt.listTablesQ s) <;>
  simp [hp, ha, hq] at h

theorem read_table_no_raise (env : Env) (t s : String) (lim off : Int) :
    ∀ e, (read_table env t s lim off).1 ≠ .error e := by
  intro e h
  unfold read_table at h
  cases hp : env.poolReady <;>
  cases ha : env.acquireFail <;>
  cases hte : env.raiseOn (Stmt.tablesExistsQ s t) <;>
  cases hcq : env.raiseOn (Stmt.countQ (s ++ "." ++ t)) <;>
  cases hpg : env.raiseOn (Stmt.pageQ (s ++ "." ++ t) lim off) <;>
  by_cases hc : (s, t) ∈ env.catalog <;>
  by_cases hneg : lim < 0 ∨ off < 0 <;>
  simp [hp, ha, hte, hcq, hpg, hc, hneg] at h

theorem execute_query_no_raise (env : Env) (q : String) (lim : Int)
    (ha : env.acquireFail = none) :
    ∀ e, (execute_query env q lim).1 ≠ .error e := by
  intro e h
  unfold execute_query at h
  cases hp : env.poolReady
  · simp [hp] at h
  · cases hg : evaluateGuard q lim
    case rejected r t => simp [hp, hg] at h
    case allowed tx =>
      cases hrad : env.raiseOn (Stmt.adhocQ tx)
      · cases hrw : env.adhocRows tx <;> simp [hp, hg, ha, hrad, hrw] at h
      · simp [hp, hg, ha, hrad] at h

theorem get_table_stats_no_raise (env : Env) (t s : String)
    (ha : env.acquireFail = none) :
    ∀ e, (get_table_stats env t s).1 ≠ .error e := by
  intro e h
  unfold get_table_stats at h
  cases hp : env.poolReady <;>
  cases hte : env.raiseOn (Stmt.tablesExistsQ s t) <;>
  cases hsq : env.raiseOn (Stmt.statsQ (s ++ "." ++ t) s t) <;>
  cases htd : env.raiseOn (Stmt.typeDistQ s t) <;>
  by_cases hc : (s, t) ∈ env.catalog <;>
  simp [hp, ha, hte, hsq, htd, hc] at h

/-- Claim C4, counterexample: a driver exception at describe_table's
column fetch, or a pool-acquire failure in search_tables, escapes the
tool boundary (the source has no try/except in either tool), so the
claim that none of the six tools ever raises past the boundary is false.
-/
theorem c4_counterexample :
    (describe_table envColsFail "users" "public").1 = .error "connection reset" ∧
    (search_tables envAcqFail "cust" "public").1 = .error "pool closed" := by
  decide

/-- Claim C4 (amended): list_tables and read_table return structured data
on every failure path; execute_query and get_table_stats convert every
exception raised while executing queries into a data result, but only
when the pool acquisition itself succeeds (their `pool.acquire()` sits
outside the try/except); describe_table and search_tables have no
exception handling at all. -/
theorem c4_errors_as_data (env : Env) :
    (∀ s, ∃ r, (list_tables env s).1 = .ok r) ∧
    (∀ t s lim off, ∃ r, (read_table env t s lim off).1 = .ok r) ∧
    (env.acquireFail = none →
      (∀ q lim, ∃ r, (execute_query env q lim).1 = .ok r) ∧
      (∀ t s, ∃ r, (get_table_stats env t s).1 = .ok r)) := by
  refine ⟨fun s => ?_, fun t s lim off => ?_, fun ha => ⟨fun q lim => ?_, fun t s => ?_⟩⟩
  · exact exists_ok_of_ne_error _ (list_tables_no_raise env s)
  · exact exists_ok_of_ne_error _ (read_table_no_raise env t s lim off)
  · exact exists_ok_of_ne_error _ (execute_query_no_raise env q lim ha)
  · exact exists_ok_of_ne_error _ (get_table_stats_no_raise env t s ha)

theorem c4_witness :
    (∃ r, (list_tables env0 "public").1 = .ok r) ∧
    (∃ r, (execute_query env0 "DROP TABLE users" 100).1 = .ok r) :=
  ⟨(c4_errors_as_data env0).1 "public",
   ((c4_errors_as_data env0).2.2 rfl).1 "DROP TABLE users" 100⟩

/-- Claim C5, counterexample: read_table on a (schema, table) pair absent
from the catalog does not return a NotFound error — it returns an
ordinary TableDataResult with zero counts and empty data,
indistinguishable from reading an empty table. -/
theorem c5_counterexample :
    ("public", "nosuch") ∉ env0.catalog ∧
    (read_table env0 "nosuch" "public" 100 0).1 =
      .ok (emptyTD "public.nosuch" 100 0) := by
  decide

/-- Claim C5 (amended): on a (schema, table) pair absent from the
catalog, each table-targeted tool short-circuits after its single
existence probe without issuing further queries; describe_table and
get_table_stats return a textual not-found message, while read_table
returns an empty TableDataResult rather than any error. -/
theorem c5_notfound_shortcircuit (env : Env) (t s : String) (lim off : Int)
    (hp : env.poolReady = true) (ha : env.acquireFail = none)
    (hte : env.raiseOn (Stmt.tablesExistsQ s t) = none)
    (hcq : env.raiseOn (Stmt.columnsQ s t) = none)
    (habs : (s, t) ∉ env.catalog) (hcols : env.columnsOf s t = []) :
    (read_table env t s lim off).1 = .ok (emptyTD (s ++ "." ++ t) lim off) ∧
    (read_table env t s lim off).2 = [Stmt.tablesExistsQ s t] ∧
    (describe_table env t s).1 = .ok (describeNotFoundMsg s t) ∧
    (describe_table env t s).2 = [Stmt.columnsQ s t] ∧
    (get_table_stats env t s).1 = .ok (statsNotFoundMsg s t) ∧
    (get_table_stats env t s).2 = [Stmt.tablesExistsQ s t] := by
  refine ⟨?_, ?_, ?_, ?_, ?_, ?_⟩
  · unfold read_table; simp [hp, ha, hte, habs]
  · unfold read_table; simp [hp, ha, hte, habs]
  · unfold describe_table; simp [hp, ha, hcq, hcols]
  · unfold describe_table; simp [hp, ha, hcq, hcols]
  · unfold get_table_stats; simp [hp, ha, hte, habs]
  · unfold get_table_stats; simp [hp, ha, hte, habs]

theorem c5_witness :
    (read_table env0 "nosuch" "public" 7 3).1 = .ok (emptyTD "public.nosuch" 7 3) ∧
    (read_table env0 "nosuch" "public" 7 3).2 = [Stmt.tablesExistsQ "public" "nosuch"] ∧
    (describe_table env0 "nosuch" "public").1 = .ok (describeNotFoundMsg "public" "nosuch") ∧
    (describe_table env0 "nosuch" "public").2 = [Stmt.columnsQ "public" "nosuch"] ∧
    (get_table_stats env0 "nosuch" "public").1 = .ok (statsNotFoundMsg "public" "nosuch") ∧
    (get_table_stats env0 "nosuch" "public").2 = [Stmt.tablesExistsQ "public" "nosuch"] :=
  c5_notfound_shortcircuit env0 "nosuch" "public" 7 3 rfl rfl rfl rfl
    (by decide) rfl

-- ---------------------------------------------------------------------
-- Shape lemmas for read_table and the statement logs.
-- ---------------------------------------------------------------------

theorem read_table_cases (env : Env) (t s : String) (lim off : Int) :
    (read_table env t s lim off).1 = .ok (emptyTD (s ++ "." ++ t) lim off) ∨
    ((s, t) ∈ env.catalog ∧ ¬ lim < 0 ∧ ¬ off < 0 ∧
      (read_table env t s lim off).1 =
        .ok ⟨s ++ "." ++ t, ((env.rowsOf s t).length : Int),
             ((((env.rowsOf s t).drop off.toNat).take lim.toNat).length : Int),
             lim, off, ((env.rowsOf s t).drop off.toNat).take lim.toNat⟩) := by
  unfold read_table
  cases hp : env.poolReady
  · left; simp [hp]
  · cases ha : env.acquireFail
    · cases hte : env.raiseOn (Stmt.tablesExistsQ s t)
      · by_cases hc : (s, t) ∈ env.catalog
        · cases hcq : env.raiseOn (Stmt.countQ (s ++ "." ++ t))
          · cases hpg : env.raiseOn (Stmt.pageQ (s ++ "." ++ t) lim off)
            · by_cases hneg : lim < 0 ∨ off < 0
              · left; simp [hp, ha, hte, hc, hcq, hpg, hneg]
              · right
                rw [not_or] at hneg
                refine ⟨hc, hneg.1, hneg.2, ?_⟩
                simp [hp, ha, hte, hc, hcq, hpg, not_or.mpr hneg]
            · left; simp [hp, ha, hte, hc, hcq, hpg]
          · left; simp [hp, ha, hte, hc, hcq]
        · left; simp [hp, ha, hte, hc]
      · left; simp [hp, ha, hte]
    · left; simp [hp, ha]

theorem read_table_interp_guard (env : Env) (t s : String) (lim off : Int) :
    (∀ st ∈ (read_table env t s lim off).2, interpStmt st = true →
        (s, t) ∈ env.catalog ∧
        (read_table env t s lim off).2.head? = some (Stmt.tablesExistsQ s t)) ∧
    ((s, t) ∉ env.catalog →
      ∀ st ∈ (read_table env t s lim off).2, interpStmt st = false) := by
  unfold read_table
  cases hp : env.poolReady <;>
  cases ha : env.acquireFail <;>
  cases hte : env.raiseOn (Stmt.tablesExistsQ s t) <;>
  cases hcq : env.raiseOn (Stmt.countQ (s ++ "." ++ t)) <;>
  cases hpg : env.raiseOn (Stmt.pageQ (s ++ "." ++ t) lim off) <;>
  by_cases hc : (s, t) ∈ env.catalog <;>
  by_cases hneg : lim < 0 ∨ off < 0 <;>
  simp [hp, ha, hte, hcq, hpg, hc, hneg, interpStmt]

theorem get_table_stats_interp_guard (env : Env) (t s : String) :
    (∀ st ∈ (get_table_stats env t s).2, interpStmt st = true →
        (s, t) ∈ env.catalog ∧
        (get_table_stats env t s).2.head? = some (Stmt.tablesExistsQ s t)) ∧
    ((s, t) ∉ env.catalog →
      ∀ st ∈ (get_table_stats env t s).2, interpStmt st = false) := by
  unfold get_table_stats
  cases hp : env.poolReady <;>
  cases ha : env.acquireFail <;>
  cases hte : env.raiseOn (Stmt.tablesExistsQ s t) <;>
  cases hsq : env.raiseOn (Stmt.statsQ (s ++ "." ++ t) s t) <;>
  cases htd : env.raiseOn (Stmt.typeDistQ s t) <;>
  by_cases hc : (s, t) ∈ env.catalog <;>
  simp [hp, ha, hte, hsq, htd, hc, interpStmt]

/-- Claim C6: the statements of read_table and get_table_stats whose text
interpolates the caller-supplied identifiers are sent only when the
(schema, table) pair is in the catalog, and only after the parameterized
existence check opened the conversation; when the pair is absent, no
interpolated statement is ever sent. -/
theorem c6_interpolation_guarded (env : Env) (t s : String) (lim off : Int) :
    (∀ st ∈ (read_table env t s lim off).2, interpStmt st = true →
        (s, t) ∈ env.catalog ∧
        (read_table env t s lim off).2.head? = some (Stmt.tablesExistsQ s t)) ∧
    (∀ st ∈ (get_table_stats env t s).2, interpStmt st = true →
        (s, t) ∈ env.catalog ∧
        (get_table_stats env t s).2.head? = some (Stmt.tablesExistsQ s t)) ∧
    ((s, t) ∉ env.catalog →
      (∀ st ∈ (read_table env t s lim off).2, interpStmt st = false) ∧
      (∀ st ∈ (get_table_stats env t s).2, interpStmt st = false)) :=
  ⟨(read_table_interp_guard env t s lim off).1,
   (get_table_stats_interp_guard env t s).1,
   fun habs => ⟨(read_table_interp_guard env t s lim off).2 habs,
                (get_table_stats_interp_guard env t s).2 habs⟩⟩

theorem c6_witness :
    (("public", "users") ∈ env2.catalog ∧
      (read_table env2 "users" "public" 1 0).2.head? =
        some (Stmt.tablesExistsQ "public" "users")) ∧
    interpStmt (Stmt.tablesExistsQ "public" "nosuch") = false :=
  ⟨(c6_interpolation_guarded env2 "users" "public" 1 0).1
      (Stmt.countQ "public.users") (by decide) (by decide),
   ((c6_interpolation_guarded env0 "nosuch" "public" 100 0).2.2 (by decide)).1
      (Stmt.tablesExistsQ "public" "nosuch") (by decide)⟩

/-- Claim C7, counterexample: an allowed query returning zero rows makes
execute_query return the plain no-results message (line 538), not a
QueryOutcome envelope with empty data and zero counts as the claim
states. -/
theorem c7_counterexample :
    (execute_query env0 "select 1" 100).1 = .ok .noResults ∧
    ExecResult.noResults ≠
      .success ⟨"select 1 LIMIT 100", [], 0, []⟩ := by
  decide

/-- Claim C7 (amended): zero rows never produce an error — execute_query
returns the textual no-results message (not a structured envelope), and
read_table with limit 0, or with offset at or past the total row count,
returns returned_rows = 0 and an empty data sequence. -/
theorem c7_empty_results :
    (∀ (env : Env) (q tx : String) (lim : Int),
      env.poolReady = true → env.acquireFail = none →
      evaluateGuard q lim = .allowed tx →
      env.raiseOn (Stmt.adhocQ tx) = none →
      env.adhocRows tx = [] →
      (execute_query env q lim).1 = .ok .noResults) ∧
    (∀ (env : Env) (t s : String) (off : Int),
      ∃ r, (read_table env t s 0 off).1 = .ok r ∧
        r.returned_rows = 0 ∧ r.data = []) ∧
    (∀ (env : Env) (t s : String) (lim off : Int),
      ((env.rowsOf s t).length : Int) ≤ off →
      ∃ r, (read_table env t s lim off).1 = .ok r ∧
        r.returned_rows = 0 ∧ r.data = []) := by
  refine ⟨?_, ?_, ?_⟩
  · intro env q tx lim hp ha hg hrad hrows
    unfold execute_query
    simp [hp, hg, ha, hrad, hrows]
  · intro env t s off
    rcases read_table_cases env t s 0 off with h | ⟨_, _, _, h⟩
    · exact ⟨_, h, rfl, rfl⟩
    · exact ⟨_, h, by simp, by simp⟩
  · intro env t s lim off hoff
    rcases read_table_cases env t s lim off with h | ⟨_, _, hoffn, h⟩
    · exact ⟨_, h, rfl, rfl⟩
    · have hdrop : (env.rowsOf s t).drop off.toNat = [] :=
        List.drop_eq_nil_of_le (by omega)
      exact ⟨_, h, by simp [hdrop], by simp [hdrop]⟩

theorem c7_witness :
    (execute_query env3 "select 1" 100).1 = .ok .noResults ∧
    (∃ r, (read_table env2 "users" "public" 0 0).1 = .ok r ∧
      r.returned_rows = 0 ∧ r.data = []) ∧
    (∃ r, (read_table env2 "users" "public" 5 2).1 = .ok r ∧
      r.returned_rows = 0 ∧ r.data = []) :=
  ⟨c7_empty_results.1 env3 "select 1" "select 1 LIMIT 100" 100 rfl rfl
      (by decide) rfl rfl,
   c7_empty_results.2.1 env2 "users" "public" 0,
   c7_empty_results.2.2 env2 "users" "public" 5 2 (by decide)⟩

/-- Claim C8: every read_table result with a non-negative requested limit
satisfies returned_rows ≤ limit (error paths return zero), and every
successful execute_query envelope has row_count equal to the length of
its data sequence. -/
theorem c8_invariants :
    (∀ (env : Env) (t s : String) (lim off : Int), 0 ≤ lim →
      ∃ r, (read_table env t s lim off).1 = .ok r ∧
        r.returned_rows ≤ r.limit ∧ r.limit = lim) ∧
    (∀ (env : Env) (q : String) (lim : Int) (r : QueryResult),
      (execute_query env q lim).1 = .ok (.success r) →
      r.row_count = (r.data.length : Int)) := by
  constructor
  · intro env t s lim off hlim
    rcases read_table_cases env t s lim off with h | ⟨_, _, _, h⟩
    · exact ⟨_, h, by simpa [emptyTD] using hlim, rfl⟩
    · refine ⟨_, h, ?_, rfl⟩
      have htake := List.length_take_le lim.toNat ((env.rowsOf s t).drop off.toNat)
      simp only []
      omega
  · intro env q lim r h
    unfold execute_query at h
    cases hp : env.poolReady
    · simp [hp] at h
    · cases hg : evaluateGuard q lim
      case rejected => simp [hp, hg] at h
      case allowed tx =>
        cases ha : env.acquireFail
        · cases hrad : env.raiseOn (Stmt.adhocQ tx)
          · cases hrw : env.adhocRows tx
            · simp [hp, hg, ha, hrad, hrw] at h
            case cons r0 rest =>
              simp [hp, hg, ha, hrad, hrw] at h
              cases h
              rfl
          · simp [hp, hg, ha, hrad] at h
        · simp [hp, hg, ha] at h

theorem c8_witness :
    (∃ r, (read_table env2 "users" "public" 1 0).1 = .ok r ∧
      r.returned_rows ≤ r.limit ∧ r.limit = 1) ∧
    (⟨"select 1 LIMIT 100", ["id"], 1, [[("id", "1")]]⟩ : QueryResult).row_count =
      (((⟨"select 1 LIMIT 100", ["id"], 1, [[("id", "1")]]⟩ : QueryResult).data.length : Int)) :=
  ⟨c8_invariants.1 env2 "users" "public" 1 0 (by decide),
   c8_invariants.2 env1 "select 1" 100 _ (by decide)⟩

/-- Claim C9: every successful execute_query echoes, in the envelope's
query field, the executed text when it is at most 200 characters and its
200-character prefix with an ellipsis appended otherwise; the executed
statement (the logged one) always carries the full text. -/
theorem c9_truncated_echo (env : Env) (q : String) (lim : Int) (r : QueryResult)
    (h : (execute_query env q lim).1 = .ok (.success r)) :
    ∃ tx, evaluateGuard q lim = .allowed tx ∧
      (execute_query env q lim).2 = [Stmt.adhocQ tx] ∧
      r.query = truncEcho tx ∧
      r.query = (if tx.data.length > 200
                 then String.mk (tx.data.take 200) ++ "..." else tx) := by
  unfold execute_query at h ⊢
  cases hp : env.poolReady
  · simp [hp] at h
  · cases hg : evaluateGuard q lim
    case rejected => simp [hp, hg] at h
    case allowed tx =>
      cases ha : env.acquireFail
      · cases hrad : env.raiseOn (Stmt.adhocQ tx)
        · cases hrw : env.adhocRows tx
          · simp [hp, hg, ha, hrad, hrw] at h
          case cons r0 rest =>
            simp [hp, hg, ha, hrad, hrw] at h
            cases h
            exact ⟨tx, rfl, by simp [hp, hg, ha, hrad, hrw], rfl, rfl⟩
        · simp [hp, hg, ha, hrad] at h
      · simp [hp, hg, ha] at h

theorem c9_witness :
    ∃ tx, evaluateGuard "select 1" 100 = .allowed tx ∧
      (execute_query env1 "select 1" 100).2 = [Stmt.adhocQ tx] ∧
      (⟨"select 1 LIMIT 100", ["id"], 1, [[("id", "1")]]⟩ : QueryResult).query =
        truncEcho tx ∧
      (⟨"select 1 LIMIT 100", ["id"], 1, [[("id", "1")]]⟩ : QueryResult).query =
        (if tx.data.length > 200
         then String.mk (tx.data.take 200) ++ "..." else tx) :=
  c9_truncated_echo env1 "select 1" 100 _ (by decide)

/-- Claim C10 (implicit): list_tables always satisfies total_count =
length(tables); its pool-failure, acquire-failure and query-exception
paths return exactly the value an empty schema returns, and read_table's
failure paths return exactly the value an empty table returns — so a
caller cannot tell failure from emptiness. -/
theorem c10_failure_indistinguishable :
    (∀ (env : Env) (s : String),
      ∃ r, (list_tables env s).1 = .ok r ∧
        r.total_count = (r.tables.length : Int)) ∧
    (∀ (env : Env) (s : String),
      env.poolReady = false ∨ env.acquireFail ≠ none ∨
        env.raiseOn (Stmt.listTablesQ s) ≠ none →
      (list_tables env s).1 = .ok ⟨s, [], 0⟩) ∧
    (∀ (env : Env) (s : String),
      env.poolReady = true → env.acquireFail = none →
      env.raiseOn (Stmt.listTablesQ s) = none →
      env.catalog.filter (fun p => p.1 == s) = [] →
      (list_tables env s).1 = .ok ⟨s, [], 0⟩) ∧
    (∀ (env : Env) (t s : String) (lim off : Int),
      env.raiseOn (Stmt.tablesExistsQ s t) ≠ none →
      (read_table env t s lim off).1 = .ok (emptyTD (s ++ "." ++ t) lim off)) ∧
    (∀ (env : Env) (t s : String) (lim off : Int),
      env.poolReady = true → env.acquireFail = none →
      env.raiseOn (Stmt.tablesExistsQ s t) = none →
      env.raiseOn (Stmt.countQ (s ++ "." ++ t)) = none →
      env.raiseOn (Stmt.pageQ (s ++ "." ++ t) lim off) = none →
      (s, t) ∈ env.catalog → env.rowsOf s t = [] →
      (read_table env t s lim off).1 = .ok (emptyTD (s ++ "." ++ t) lim off)) := by
  refine ⟨?_, ?_, ?_, ?_, ?_⟩
  · intro env s
    unfold list_tables
    cases hp : env.poolReady <;>
    cases ha : env.acquireFail <;>
    cases hq : env.raiseOn (Stmt.listTablesQ s) <;>
    simp [hp, ha, hq]
  · intro env s h
    unfold list_tables
    rcases h with hp | hne | hne
    · simp [hp]
    · cases hp : env.poolReady
      · simp [hp]
      · cases ha : env.acquireFail
        · exact absurd ha hne
        · simp [hp, ha]
    · cases hp : env.poolReady
      · simp [hp]
      · cases ha : env.acquireFail
        · cases hq : env.raiseOn (Stmt.listTablesQ s)
          · exact absurd hq hne
          · simp [hp, ha, hq]
        · simp [hp, ha]
  · intro env s hp ha hq hfil
    unfold list_tables
    simp [hp, ha, hq, tablesInSchema, hfil, sortStrings]
  · intro env t s lim off hne
    unfold read_table
    cases hp : env.poolReady
    · simp [hp]
    · cases ha : env.acquireFail
      · cases hte : env.raiseOn (Stmt.tablesExistsQ s t)
        · exact absurd hte hne
        · simp [hp, ha, hte]
      · simp [hp, ha]
  · intro env t s lim off hp ha hte hcq hpg hc hrows
    unfold read_table
    by_cases hneg : lim < 0 ∨ off < 0 <;>
    simp [hp, ha, hte, hcq, hpg, hc, hrows, hneg, emptyTD]

theorem c10_witness :
    (∃ r, (list_tables env0 "public").1 = .ok r ∧
      r.total_count = (r.tables.length : Int)) ∧
    (list_tables envDown "public").1 = .ok ⟨"public", [], 0⟩ ∧
    (list_tables env0 "public").1 = .ok ⟨"public", [], 0⟩ ∧
    (read_table envTeFail "users" "public" 100 0).1 =
      .ok (emptyTD "public.users" 100 0) ∧
    (read_table env3 "empty" "public" 100 0).1 =
      .ok (emptyTD "public.empty" 100 0) :=
  ⟨c10_failure_indistinguishable.1 env0 "public",
   c10_failure_indistinguishable.2.1 envDown "public" (Or.inl rfl),
   c10_failure_indistinguishable.2.2.1 env0 "public" rfl rfl rfl rfl,
   c10_failure_indistinguishable.2.2.2.1 envTeFail "users" "public" 100 0
     (by decide),
   c10_failure_indistinguishable.2.2.2.2 env3 "empty" "public" 100 0
     rfl rfl rfl rfl rfl (by decide) rfl⟩

end PgMcp
